import Mathlib

/-!
# ChainFlow lending core — shallow embedding and verification

This file embeds the on-chain lending/liquidation engine of the ChainFlow
repository (`contracts/LendingCore.sol`, with its collaborators
`CreditScoreRegistry.sol` and `PriceOracleRouter.sol`) into Lean 4 and proves
or refutes the specified properties of the loan state machine.

Modelling conventions:
* All token amounts, rates, timestamps and prices are unbounded naturals.
  Solidity 0.8 checked arithmetic aborts on `uint256` overflow; those aborts
  are outside the arithmetic ranges the properties quantify over and are not
  modelled.  Truncating `uint256` division is `Nat` division.
* Addresses and `bytes32` hashes are opaque `Nat` identities.
* Each `require` in the source becomes a distinct error constructor of
  `LendingError`, returned through `Except`; a Solidity revert rolls back all
  state, which the functional style captures by returning no new state on
  error.
* Token transfers executed through the `CollateralVault` are reported as an
  explicit "released collateral" component of each operation's result, so
  that custody flows can be reasoned about; the vault's internal balance map
  is not needed by the properties below.
* `collateralToken` / `debtToken` are immutable contract-level constants in
  the source (the same for every loan) and carry no information, so the
  `Loan` record omits the two copied address fields.
-/

namespace ChainFlow

/-- `type(uint256).max`, the value `healthFactor` returns for debt-free
loans. -/
def UINT256_MAX : Nat := 2 ^ 256 - 1

/-- Denominator of the simple-interest formula in `_accrueInterest`:
`365 days * 10000 bps`. -/
def YEAR_BPS : Nat := 365 * 86400 * 10000

/-- One error constructor per `require` string in the source contracts,
named after the spec's error taxonomy. -/
inductive LendingError where
  | CollateralZero            -- "Collateral must be > 0"
  | DebtZero                  -- "Debt must be > 0"
  | NoCreditScore             -- "No credit score set"
  | ExceedsLTV                -- "Exceeds LTV limit"
  | InsufficientLiquidity     -- "Insufficient liquidity"
  | LoanNotActive             -- "Loan not active"
  | NotBorrower               -- "Not borrower"
  | RepayExceedsDebt          -- "Repay exceeds debt"
  | HealthFactorOk            -- "Health factor >= 1"
  | SeizureExceedsCollateral  -- "Seizure exceeds collateral"
  | InvalidTier               -- "Invalid tier"
  | LTVTooHigh                -- "LTV > 100%"
  | NotOwner                  -- OpenZeppelin Ownable: caller is not the owner
  | ContractPaused            -- OpenZeppelin Pausable: whenNotPaused
  deriving Repr, DecidableEq

/-- Decidable equality on `Except` results, so concrete runs can be checked
by evaluation. -/
instance {ε α : Type} [DecidableEq ε] [DecidableEq α] :
    DecidableEq (Except ε α) := fun x y =>
  match x, y with
  | .error a, .error b =>
    if h : a = b then .isTrue (by rw [h])
    else .isFalse (fun hh => h (by cases hh; rfl))
  | .ok a, .ok b =>
    if h : a = b then .isTrue (by rw [h])
    else .isFalse (fun hh => h (by cases hh; rfl))
  | .error _, .ok _ => .isFalse (fun hh => nomatch hh)
  | .ok _, .error _ => .isFalse (fun hh => nomatch hh)

/-- `LendingCore.Loan` (the two immutable token-address fields are omitted,
see the header note). -/
structure Loan where
  borrower : Nat
  collateralAmount : Nat
  debtAmount : Nat
  interestRate : Nat      -- APR in basis points
  createdAt : Nat
  lastAccruedAt : Nat
  active : Bool
  deriving Repr, DecidableEq

/-- `LendingCore.TierParams`. -/
structure TierParams where
  ltvBps : Nat
  aprBps : Nat
  deriving Repr, DecidableEq

/-- `CreditScoreRegistry.UserScore`. -/
structure UserScore where
  scoreHash : Nat
  tier : Nat              -- uint8: 0 = C, 1 = B, 2 = A
  deriving Repr, DecidableEq

/-- The credit registry's `userScores` mapping.  `none` models an address for
which `setScoreHash` was never called; the Solidity mapping then yields the
zero-initialised struct, which `getTier` reads. -/
def Registry : Type := Nat → Option UserScore

/-- `CreditScoreRegistry.setScoreHash` (owner-only in the source; the access
check is orthogonal to the claims and elided here). -/
def setScoreHash (reg : Registry) (user scoreHash tier : Nat) :
    Except LendingError Registry :=
  if tier > 2 then .error .InvalidTier
  else .ok (fun a => if a = user then some ⟨scoreHash, tier⟩ else reg a)

/-- `CreditScoreRegistry.getTier`: reads `userScores[user].tier`; an unset
mapping entry is the zero struct, so an unscored user reads tier `0`. -/
def getTier (reg : Registry) (user : Nat) : Nat :=
  match reg user with
  | some s => s.tier
  | none => 0

/-- Mutable storage of `LendingCore` (immutable collaborator addresses and
token addresses are elided; `owner` and `paused` model the OpenZeppelin
`Ownable` / `Pausable` mixins). -/
structure LendingState where
  loans : Nat → Loan
  loanCounter : Nat
  tierParams : Nat → TierParams
  liquidationThresholdBps : Nat
  liquidationBonusBps : Nat
  owner : Nat
  paused : Bool

/-- Pointwise update of a Solidity mapping modelled as a function. -/
def setAt {α : Type} (f : Nat → α) (k : Nat) (v : α) : Nat → α :=
  fun i => if i = k then v else f i

/-- The zero-initialised `Loan` struct a Solidity mapping yields for an
unknown id (in particular `active = false`). -/
def emptyLoan : Loan := ⟨0, 0, 0, 0, 0, 0, false⟩

/-- The `LendingCore` constructor's initial storage: tier table
A = (7000, 600), B = (6000, 900), C = (5000, 1200); threshold 8500;
bonus 500. -/
def initState (owner : Nat) : LendingState where
  loans := fun _ => emptyLoan
  loanCounter := 0
  tierParams := fun t =>
    if t = 2 then ⟨7000, 600⟩
    else if t = 1 then ⟨6000, 900⟩
    else if t = 0 then ⟨5000, 1200⟩
    else ⟨0, 0⟩
  liquidationThresholdBps := 8500
  liquidationBonusBps := 500
  owner := owner
  paused := false

/-- `_accrueInterest` applied to one loan record: the storage mutation
`loans[loanId]` undergoes.  `now` is `block.timestamp`. -/
def accrueLoan (loan : Loan) (now : Nat) : Loan :=
  if loan.debtAmount = 0 then loan
  else
    let timeElapsed := now - loan.lastAccruedAt
    if timeElapsed = 0 then loan
    else
      let interest := loan.debtAmount * loan.interestRate * timeElapsed /
        (365 * 86400 * 10000)
      { loan with
          debtAmount := loan.debtAmount + interest
          lastAccruedAt := now }

/-- `_calculateDebtWithInterest`: the view-only accrual on a memory
snapshot. -/
def calculateDebtWithInterest (loan : Loan) (now : Nat) : Nat :=
  if loan.debtAmount = 0 then 0
  else
    let timeElapsed := now - loan.lastAccruedAt
    if timeElapsed = 0 then loan.debtAmount
    else
      let interest := loan.debtAmount * loan.interestRate * timeElapsed /
        (365 * 86400 * 10000)
      loan.debtAmount + interest

/-- `healthFactor(loanId)` on the loan record it loads into memory; `price`
is the value `oracle.getPrice()` returned.  A view function: it takes and
returns no storage. -/
def healthFactor (loan : Loan) (price now : Nat) : Except LendingError Nat :=
  if loan.active = false then .error .LoanNotActive
  else
    let currentDebt := calculateDebtWithInterest loan now
    let collateralValue := loan.collateralAmount * price / 10 ^ 18
    let debtValue := currentDebt * 10 ^ 12
    if debtValue = 0 then .ok UINT256_MAX
    else .ok (collateralValue * 10 ^ 18 / debtValue)

/-- `healthFactor` as called externally, loading `loans[loanId]`. -/
def healthFactorS (st : LendingState) (loanId price now : Nat) :
    Except LendingError Nat :=
  healthFactor (st.loans loanId) price now

/-- `openLoan(collateralAmount, desiredDebt)`.  `sender` is `msg.sender`,
`price` the oracle answer, `poolBalance` the contract's debt-token balance.
Returns the new storage and the assigned loan id.  The collateral pull into
the vault and the debt-token disbursement are collaborator transfers with no
effect on `LendingCore` storage. -/
def openLoan (st : LendingState) (reg : Registry)
    (sender price now poolBalance collateralAmount desiredDebt : Nat) :
    Except LendingError (LendingState × Nat) :=
  if st.paused then .error .ContractPaused
  else if collateralAmount = 0 then .error .CollateralZero
  else if desiredDebt = 0 then .error .DebtZero
  else
    let tier := getTier reg sender
    if tier > 2 then .error .NoCreditScore
    else
      let params := st.tierParams tier
      let collateralValue := collateralAmount * price / 10 ^ 18
      let desiredDebt18 := desiredDebt * 10 ^ 12
      let maxDebt := collateralValue * params.ltvBps / 10000
      if desiredDebt18 > maxDebt then .error .ExceedsLTV
      else if poolBalance < desiredDebt then .error .InsufficientLiquidity
      else
        let loanId := st.loanCounter
        let newLoan : Loan :=
          ⟨sender, collateralAmount, desiredDebt, params.aprBps, now, now, true⟩
        .ok ({ st with
                loans := setAt st.loans loanId newLoan
                loanCounter := st.loanCounter + 1 }, loanId)

/-- `repay(loanId, repayAmount)`.  Returns the new storage, the collateral
amount released to the borrower by `vault.withdraw` (0 on a partial
repayment), and the remaining debt emitted in `LoanRepaid`. -/
def repay (st : LendingState) (sender now loanId repayAmount : Nat) :
    Except LendingError (LendingState × Nat × Nat) :=
  if st.paused then .error .ContractPaused
  else
    let loan := st.loans loanId
    if loan.active = false then .error .LoanNotActive
    else if loan.borrower ≠ sender then .error .NotBorrower
    else
      let loan := accrueLoan loan now
      let currentDebt := loan.debtAmount
      if repayAmount > currentDebt then .error .RepayExceedsDebt
      else
        let remainingDebt := currentDebt - repayAmount
        if remainingDebt = 0 then
          .ok ({ st with
                  loans := setAt st.loans loanId { loan with active := false } },
               loan.collateralAmount, remainingDebt)
        else
          .ok ({ st with
                  loans := setAt st.loans loanId
                    { loan with debtAmount := remainingDebt } },
               0, remainingDebt)

/-- `liquidate(loanId, maxRepay)`.  Returns the new storage and the
collateral released to the liquidator (`seizedCollateral`). -/
def liquidate (st : LendingState) (sender price now loanId maxRepay : Nat) :
    Except LendingError (LendingState × Nat) :=
  if st.paused then .error .ContractPaused
  else
    let loan := st.loans loanId
    if loan.active = false then .error .LoanNotActive
    else
      match healthFactor loan price now with
      | .error e => .error e
      | .ok hf =>
        if hf ≥ 10 ^ 18 then .error .HealthFactorOk
        else
          let loan := accrueLoan loan now
          let currentDebt := loan.debtAmount
          let repayAmount := if maxRepay < currentDebt then maxRepay else currentDebt
          let bonus := repayAmount * st.liquidationBonusBps / 10000
          let seizedAmount := repayAmount + bonus
          let seizedCollateral := seizedAmount * 10 ^ 12 * 10 ^ 18 / price
          if seizedCollateral > loan.collateralAmount then
            .error .SeizureExceedsCollateral
          else
            let newDebt := currentDebt - repayAmount
            let loan := { loan with
                            debtAmount := newDebt
                            active := if newDebt = 0 then false else loan.active }
            .ok ({ st with loans := setAt st.loans loanId loan }, seizedCollateral)

/-- `setTierParams(tier, ltvBps, aprBps)` (owner only). -/
def setTierParams (st : LendingState) (sender tier ltvBps aprBps : Nat) :
    Except LendingError LendingState :=
  if sender ≠ st.owner then .error .NotOwner
  else if tier > 2 then .error .InvalidTier
  else if ltvBps > 10000 then .error .LTVTooHigh
  else .ok { st with tierParams := setAt st.tierParams tier ⟨ltvBps, aprBps⟩ }

/-- `setLiquidationParams(thresholdBps, bonusBps)` (owner only): stores both
values with no range validation. -/
def setLiquidationParams (st : LendingState) (sender thresholdBps bonusBps : Nat) :
    Except LendingError LendingState :=
  if sender ≠ st.owner then .error .NotOwner
  else .ok { st with
               liquidationThresholdBps := thresholdBps
               liquidationBonusBps := bonusBps }

/-! ## Concrete scenarios

`exLoan` is an under-collateralized position: 1 collateral token (1e18 wei)
against 0.6 USDC of debt (600000 six-decimal units) at tier-A APR; at price
0.5 USD (5e17) its health factor is 5/6 < 1. -/

/-- An under-collateralized loan used for concrete liquidation runs. -/
def exLoan : Loan := ⟨1, 10 ^ 18, 600000, 600, 0, 0, true⟩

/-- Freshly constructed engine holding `exLoan` at id 0. -/
def exLiqState : LendingState :=
  { initState 0 with loans := setAt (initState 0).loans 0 exLoan }

/-- A healthy loan of 1 USDC of debt against 1 collateral token. -/
def exRepayLoan : Loan := ⟨1, 10 ^ 18, 1000000, 600, 0, 0, true⟩

/-- Freshly constructed engine holding `exRepayLoan` at id 0. -/
def exRepayState : LendingState :=
  { initState 0 with loans := setAt (initState 0).loans 0 exRepayLoan }

/-- The spec's worked scenario: 35 USDC of debt at tier-A APR 600 bps. -/
def specLoan : Loan := ⟨1, 100 * 10 ^ 18, 35000000, 600, 0, 0, true⟩

/-! ## Normal forms

Definitional restatements of the accrual and health-factor bodies with the
`let` bindings inlined, used to drive case splits in the proofs below. -/

theorem accrueLoan_def (l : Loan) (now : Nat) :
    accrueLoan l now =
      if l.debtAmount = 0 then l
      else if now - l.lastAccruedAt = 0 then l
      else
        { l with
            debtAmount := l.debtAmount +
              l.debtAmount * l.interestRate * (now - l.lastAccruedAt) /
                (365 * 86400 * 10000)
            lastAccruedAt := now } := rfl

theorem calculateDebtWithInterest_def (l : Loan) (now : Nat) :
    calculateDebtWithInterest l now =
      if l.debtAmount = 0 then 0
      else if now - l.lastAccruedAt = 0 then l.debtAmount
      else l.debtAmount +
        l.debtAmount * l.interestRate * (now - l.lastAccruedAt) /
          (365 * 86400 * 10000) := rfl

theorem healthFactor_def (l : Loan) (price now : Nat) :
    healthFactor l price now =
      if l.active = false then .error .LoanNotActive
      else if calculateDebtWithInterest l now * 10 ^ 12 = 0 then .ok UINT256_MAX
      else .ok ((l.collateralAmount * price / 10 ^ 18) * 10 ^ 18 /
        (calculateDebtWithInterest l now * 10 ^ 12)) := rfl

theorem openLoan_def (st : LendingState) (reg : Registry)
    (sender price now poolBalance collateralAmount desiredDebt : Nat) :
    openLoan st reg sender price now poolBalance collateralAmount desiredDebt =
      if st.paused then .error .ContractPaused
      else if collateralAmount = 0 then .error .CollateralZero
      else if desiredDebt = 0 then .error .DebtZero
      else if getTier reg sender > 2 then .error .NoCreditScore
      else if desiredDebt * 10 ^ 12 >
          (collateralAmount * price / 10 ^ 18) *
            (st.tierParams (getTier reg sender)).ltvBps / 10000 then
        .error .ExceedsLTV
      else if poolBalance < desiredDebt then .error .InsufficientLiquidity
      else
        .ok ({ st with
                loans := setAt st.loans st.loanCounter
                  ⟨sender, collateralAmount, desiredDebt,
                    (st.tierParams (getTier reg sender)).aprBps, now, now, true⟩
                loanCounter := st.loanCounter + 1 }, st.loanCounter) := rfl

theorem repay_def (st : LendingState) (sender now loanId repayAmount : Nat) :
    repay st sender now loanId repayAmount =
      if st.paused then .error .ContractPaused
      else if (st.loans loanId).active = false then .error .LoanNotActive
      else if (st.loans loanId).borrower ≠ sender then .error .NotBorrower
      else if repayAmount > (accrueLoan (st.loans loanId) now).debtAmount then
        .error .RepayExceedsDebt
      else if (accrueLoan (st.loans loanId) now).debtAmount - repayAmount = 0 then
        .ok ({ st with
                loans := setAt st.loans loanId
                  { accrueLoan (st.loans loanId) now with active := false } },
             (accrueLoan (st.loans loanId) now).collateralAmount,
             (accrueLoan (st.loans loanId) now).debtAmount - repayAmount)
      else
        .ok ({ st with
                loans := setAt st.loans loanId
                  { accrueLoan (st.loans loanId) now with
                      debtAmount :=
                        (accrueLoan (st.loans loanId) now).debtAmount - repayAmount } },
             0, (accrueLoan (st.loans loanId) now).debtAmount - repayAmount) := rfl

theorem liquidate_def (st : LendingState) (sender price now loanId maxRepay : Nat) :
    liquidate st sender price now loanId maxRepay =
      if st.paused then .error .ContractPaused
      else if (st.loans loanId).active = false then .error .LoanNotActive
      else
        match healthFactor (st.loans loanId) price now with
        | .error e => .error e
        | .ok hf =>
          if hf ≥ 10 ^ 18 then .error .HealthFactorOk
          else
            if ((if maxRepay < (accrueLoan (st.loans loanId) now).debtAmount
                  then maxRepay else (accrueLoan (st.loans loanId) now).debtAmount) +
                (if maxRepay < (accrueLoan (st.loans loanId) now).debtAmount
                  then maxRepay else (accrueLoan (st.loans loanId) now).debtAmount) *
                  st.liquidationBonusBps / 10000) * 10 ^ 12 * 10 ^ 18 / price >
                (accrueLoan (st.loans loanId) now).collateralAmount then
              .error .SeizureExceedsCollateral
            else
              .ok ({ st with
                      loans := setAt st.loans loanId
                        { accrueLoan (st.loans loanId) now with
                            debtAmount := (accrueLoan (st.loans loanId) now).debtAmount -
                              (if maxRepay < (accrueLoan (st.loans loanId) now).debtAmount
                                then maxRepay else (accrueLoan (st.loans loanId) now).debtAmount)
                            active := if (accrueLoan (st.loans loanId) now).debtAmount -
                                (if maxRepay < (accrueLoan (st.loans loanId) now).debtAmount
                                  then maxRepay
                                  else (accrueLoan (st.loans loanId) now).debtAmount) = 0
                              then false else (accrueLoan (st.loans loanId) now).active } },
                   ((if maxRepay < (accrueLoan (st.loans loanId) now).debtAmount
                      then maxRepay else (accrueLoan (st.loans loanId) now).debtAmount) +
                    (if maxRepay < (accrueLoan (st.loans loanId) now).debtAmount
                      then maxRepay else (accrueLoan (st.loans loanId) now).debtAmount) *
                      st.liquidationBonusBps / 10000) * 10 ^ 12 * 10 ^ 18 / price) := rfl

/-! ## Helper lemmas on accrual -/

theorem accrueLoan_active (l : Loan) (now : Nat) :
    (accrueLoan l now).active = l.active := by
  rw [accrueLoan_def]; split_ifs <;> rfl

theorem accrueLoan_collateral (l : Loan) (now : Nat) :
    (accrueLoan l now).collateralAmount = l.collateralAmount := by
  rw [accrueLoan_def]; split_ifs <;> rfl

theorem accrueLoan_zero_debt (l : Loan) (now : Nat) (h : l.debtAmount = 0) :
    accrueLoan l now = l := by
  rw [accrueLoan_def]; simp [h]

theorem accrueLoan_zero_elapsed (l : Loan) (now : Nat)
    (h : now - l.lastAccruedAt = 0) : accrueLoan l now = l := by
  rw [accrueLoan_def]; simp [h]

theorem accrueLoan_pos (l : Loan) (now : Nat) (hD : l.debtAmount ≠ 0)
    (hE : now - l.lastAccruedAt ≠ 0) :
    accrueLoan l now =
      { l with
          debtAmount := l.debtAmount +
            l.debtAmount * l.interestRate * (now - l.lastAccruedAt) /
              (365 * 86400 * 10000)
          lastAccruedAt := now } := by
  rw [accrueLoan_def, if_neg hD, if_neg hE]

/-- Truncating division loses at most one unit when an accrual interval is
split: the one-shot interest over `e1 + e2` exceeds the sum of the two-step
interests (the second accruing on the already-grown balance) by at most 1. -/
theorem split_interest_bound (D r e1 e2 : Nat) :
    D * r * (e1 + e2) / (365 * 86400 * 10000) ≤
      D * r * e1 / (365 * 86400 * 10000) +
        (D + D * r * e1 / (365 * 86400 * 10000)) * r * e2 /
          (365 * 86400 * 10000) + 1 := by
  have h1 : D * r * (e1 + e2) = D * r * e1 + D * r * e2 := by ring
  have h2 : (D * r * e1 + D * r * e2) / (365 * 86400 * 10000) ≤
      D * r * e1 / (365 * 86400 * 10000) +
        D * r * e2 / (365 * 86400 * 10000) + 1 := by
    rw [Nat.add_div (by norm_num)]
    split_ifs <;> omega
  have h3 : D * r * e2 / (365 * 86400 * 10000) ≤
      (D + D * r * e1 / (365 * 86400 * 10000)) * r * e2 /
        (365 * 86400 * 10000) :=
    Nat.div_le_div_right
      (Nat.mul_le_mul_right _ (Nat.mul_le_mul_right _ (Nat.le_add_right _ _)))
  omega

/-! ## Theorems -/

/-- C6: interest accrual.  `_accrueInterest` is a no-op when `debtAmount = 0`
or when no time has elapsed; otherwise it adds exactly
`debtAmount * interestRateBps * elapsed / (365 * 86400 * 10000)` (truncating
division) to the debt and stamps `lastAccruedAt = now`; it is idempotent at a
fixed timestamp, and the debt never decreases under accrual. -/
theorem accrue_interest_spec : ∀ (l : Loan) (now : Nat),
    (l.debtAmount = 0 → accrueLoan l now = l) ∧
    (now - l.lastAccruedAt = 0 → accrueLoan l now = l) ∧
    (0 < l.debtAmount → 0 < now - l.lastAccruedAt →
      accrueLoan l now =
        { l with
            debtAmount := l.debtAmount +
              l.debtAmount * l.interestRate * (now - l.lastAccruedAt) /
                (365 * 86400 * 10000)
            lastAccruedAt := now }) ∧
    accrueLoan (accrueLoan l now) now = accrueLoan l now ∧
    l.debtAmount ≤ (accrueLoan l now).debtAmount := by
  intro l now
  refine ⟨?_, ?_, ?_, ?_, ?_⟩
  · intro h; rw [accrueLoan_def]; simp [h]
  · intro h; rw [accrueLoan_def]; simp [h]
  · intro hd he
    rw [accrueLoan_def]
    rw [if_neg (by omega), if_neg (by omega)]
  · rw [accrueLoan_def l now]
    split_ifs with h1 h2
    · rw [accrueLoan_def]; simp [h1]
    · rw [accrueLoan_def]; simp [h1, h2]
    · rw [accrueLoan_def]; simp
  · rw [accrueLoan_def]
    split_ifs with h1 h2
    · exact Nat.le_refl _
    · exact Nat.le_refl _
    · simp

/-- Witness for C6: the spec's worked scenario, one year of accrual on 35
USDC at 600 bps yields exactly 37.1 USDC and stamps the accrual time. -/
theorem accrue_interest_spec_witness :
    accrueLoan specLoan 31536000 =
      { specLoan with debtAmount := 37100000, lastAccruedAt := 31536000 } := by
  have h := (accrue_interest_spec specLoan 31536000).2.2.1 (by decide) (by decide)
  rw [h]; decide

/-- C7: `healthFactor` rejects inactive loans with `LoanNotActive`; for
active loans it computes the current debt with the same accrual formula as
`_accrueInterest` on a snapshot (the view `_calculateDebtWithInterest` agrees
with the mutating accrual, and the function is pure by construction, touching
no storage), returns `type(uint256).max` when the normalized debt value is
zero, and otherwise returns
`(collateralAmount * price / 1e18) * 1e18 / (currentDebt * 1e12)`. -/
theorem healthFactor_spec : ∀ (l : Loan) (price now : Nat),
    calculateDebtWithInterest l now = (accrueLoan l now).debtAmount ∧
    (l.active = false → healthFactor l price now = .error .LoanNotActive) ∧
    (l.active = true → calculateDebtWithInterest l now = 0 →
      healthFactor l price now = .ok UINT256_MAX) ∧
    (l.active = true → 0 < calculateDebtWithInterest l now →
      healthFactor l price now =
        .ok ((l.collateralAmount * price / 10 ^ 18) * 10 ^ 18 /
          (calculateDebtWithInterest l now * 10 ^ 12))) := by
  intro l price now
  refine ⟨?_, ?_, ?_, ?_⟩
  · rw [calculateDebtWithInterest_def, accrueLoan_def]
    split_ifs with h1 h2 <;> simp [h1]
  · intro h; rw [healthFactor_def]; simp [h]
  · intro ha h
    rw [healthFactor_def]
    simp [ha, h]
  · intro ha h
    have h12 : ¬ (calculateDebtWithInterest l now * 10 ^ 12 = 0) := by positivity
    rw [healthFactor_def]
    simp [ha, h12]
    omega

/-- Witness for C7: inactive loans are rejected; the under-collateralized
scenario evaluates to health factor 5/6 (in 1e18 fixed point). -/
theorem healthFactor_spec_witness :
    healthFactor emptyLoan (5 * 10 ^ 17) 0 = .error .LoanNotActive ∧
    healthFactor exLoan (5 * 10 ^ 17) 0 = .ok 833333333333333333 := by
  constructor
  · exact (healthFactor_spec emptyLoan (5 * 10 ^ 17) 0).2.1 rfl
  · have h := (healthFactor_spec exLoan (5 * 10 ^ 17) 0).2.2.2 rfl (by decide)
    rw [h]; rfl

/-- C1 (code bug): collateral is NOT conserved.  Liquidating the
under-collateralized loan with `maxRepay = 300000` (price 0.5 USD) releases
`seizedCollateral = 630000000000000000` wei to the liquidator, yet the
stored `collateralAmount` remains the full original `10^18` — `liquidate`
never decrements it.  Hence released collateral plus current
`collateralAmount` exceeds the collateral at origination, and the claimed
decrement by exactly `seizedCollateral` does not happen. -/
theorem liquidate_breaks_collateral_conservation :
    (liquidate exLiqState 2 (5 * 10 ^ 17) 0 0 300000).toOption.map
        (fun p => (p.2, (p.1.loans 0).collateralAmount,
          (p.1.loans 0).debtAmount, (p.1.loans 0).active))
      = some (63 * 10 ^ 16, 10 ^ 18, 300000, true) ∧
    63 * 10 ^ 16 + 10 ^ 18 ≠ exLoan.collateralAmount := by
  exact ⟨rfl, by decide⟩

/-- C2 (code bug): `openLoan` never fails with `NoCreditScore`.
An address with no `setScoreHash` record reads the mapping's default tier 0,
which passes `require(tier <= 2)`, so the unscored borrower is served at
tier-C parameters (APR 1200 bps): the concrete run returns loan id 0 for a
borrower absent from the registry.  In general, every reachable registry
(all stored tiers at most 2, as `setScoreHash` enforces) makes the
`NoCreditScore` branch unreachable. -/
theorem openLoan_accepts_unscored_borrower :
    ((openLoan (initState 0) (fun _ => none) 1 (5 * 10 ^ 17) 0 (10 ^ 12)
          (10 ^ 18) 100000).toOption.map
        (fun p => (p.2, (p.1.loans 0).borrower, (p.1.loans 0).debtAmount,
          (p.1.loans 0).interestRate, (p.1.loans 0).active))
      = some (0, 1, 100000, 1200, true)) ∧
    (∀ (st : LendingState) (reg : Registry) (sender price now pool c d : Nat),
      (∀ a s, reg a = some s → s.tier ≤ 2) →
      openLoan st reg sender price now pool c d ≠
        Except.error LendingError.NoCreditScore) := by
  constructor
  · rfl
  · intro st reg sender price now pool c d hwf
    have ht : getTier reg sender ≤ 2 := by
      cases hr : reg sender with
      | none => simp [getTier, hr]
      | some s => simpa [getTier, hr] using hwf sender s hr
    rw [openLoan_def]
    split_ifs with h1 h2 h3 h4 h5 h6 <;> simp_all <;> omega

/-- Counterexample to C3: repaying the full accrued debt (1 USDC, no time
elapsed) releases the collateral and deactivates the loan, but the stored
`debtAmount` remains 1000000 — `repay` never zeroes it, so the claimed
Closed state `active = false ∧ debtAmount = 0` is not reached. -/
theorem repay_full_leaves_debt_recorded :
    (repay exRepayState 1 0 0 1000000).toOption.map
        (fun p => (p.2.1, p.2.2, (p.1.loans 0).debtAmount, (p.1.loans 0).active))
      = some (10 ^ 18, 0, 1000000, false) ∧ (1000000 : Nat) ≠ 0 := by
  exact ⟨rfl, by decide⟩

/-- C3 (amended): repaying exactly the accrued debt sets `active = false`
and releases exactly `collateralAmount`, with remaining debt 0 reported —
but the stored `debtAmount` field keeps the accrued value rather than being
zeroed; a partial repayment stores `accruedDebt - repayAmount`, keeps the
loan active, and releases no collateral. -/
theorem repay_spec (st : LendingState) (sender now loanId repayAmount : Nat)
    (hp : st.paused = false) (ha : (st.loans loanId).active = true)
    (hb : (st.loans loanId).borrower = sender) :
    (repayAmount = (accrueLoan (st.loans loanId) now).debtAmount →
      repay st sender now loanId repayAmount =
        .ok ({ st with
                loans := setAt st.loans loanId
                  { accrueLoan (st.loans loanId) now with active := false } },
             (accrueLoan (st.loans loanId) now).collateralAmount, 0)) ∧
    (repayAmount < (accrueLoan (st.loans loanId) now).debtAmount →
      repay st sender now loanId repayAmount =
        .ok ({ st with
                loans := setAt st.loans loanId
                  { accrueLoan (st.loans loanId) now with
                      debtAmount :=
                        (accrueLoan (st.loans loanId) now).debtAmount - repayAmount } },
             0, (accrueLoan (st.loans loanId) now).debtAmount - repayAmount)) := by
  constructor
  · intro hfull
    rw [repay_def]
    rw [if_neg (by simp [hp]), if_neg (by simp [ha]), if_neg (by simp [hb]),
      if_neg (by omega), if_pos (by omega)]
    rw [hfull, Nat.sub_self]
  · intro hpart
    rw [repay_def]
    rw [if_neg (by simp [hp]), if_neg (by simp [ha]), if_neg (by simp [hb]),
      if_neg (by omega), if_neg (by omega)]

/-- Witness for C3 (amended): the concrete full repayment, with the stored
debt still 1000000 inside the updated record. -/
theorem repay_spec_witness :
    repay exRepayState 1 0 0 1000000 =
      .ok ({ exRepayState with
              loans := setAt exRepayState.loans 0
                { accrueLoan (exRepayState.loans 0) 0 with active := false } },
           (accrueLoan (exRepayState.loans 0) 0).collateralAmount, 0) :=
  (repay_spec exRepayState 1 0 0 1000000 rfl rfl rfl).1 (by decide)

/-- C5: the LTV gate.  Under the openLoan preconditions (not paused,
positive collateral and debt request, a tier in range), the call fails with
`ExceedsLTV` exactly when
`desiredDebt * 1e12 > ((collateralAmount * p / 1e18) * ltvBps) / 10000`
in truncating arithmetic, and at the exact boundary
`desiredDebt18 = maxDebt` (given liquidity) it succeeds, creating the loan;
an error result carries no state, so rejection is total. -/
theorem openLoan_ltv_gate (st : LendingState) (reg : Registry)
    (sender price now pool c d : Nat)
    (hp : st.paused = false) (hc : 0 < c) (hd : 0 < d)
    (ht : getTier reg sender ≤ 2) :
    (openLoan st reg sender price now pool c d = .error .ExceedsLTV ↔
      (c * price / 10 ^ 18) * (st.tierParams (getTier reg sender)).ltvBps / 10000
        < d * 10 ^ 12) ∧
    (d * 10 ^ 12 =
        (c * price / 10 ^ 18) * (st.tierParams (getTier reg sender)).ltvBps / 10000 →
      d ≤ pool →
      openLoan st reg sender price now pool c d =
        .ok ({ st with
                loans := setAt st.loans st.loanCounter
                  ⟨sender, c, d, (st.tierParams (getTier reg sender)).aprBps,
                    now, now, true⟩
                loanCounter := st.loanCounter + 1 }, st.loanCounter)) := by
  constructor
  · rw [openLoan_def]
    rw [if_neg (by simp [hp]), if_neg (by omega), if_neg (by omega),
      if_neg (by omega)]
    split_ifs with hltv hliq <;> simp_all
  · intro hboundary hliq
    rw [openLoan_def]
    rw [if_neg (by simp [hp]), if_neg (by omega), if_neg (by omega),
      if_neg (by omega), if_neg (by omega), if_neg (by omega)]

/-- Witness for C5: the spec's worked boundary scenario — tier A, price 0.5,
100 collateral tokens, 35 USDC requested — hits `desiredDebt18 = maxDebt`
exactly and is accepted as loan 0. -/
theorem openLoan_ltv_gate_witness :
    openLoan (initState 0) (fun a => if a = 1 then some ⟨7, 2⟩ else none) 1
        (5 * 10 ^ 17) 0 (10 ^ 9) (100 * 10 ^ 18) 35000000 =
      .ok ({ initState 0 with
              loans := setAt (initState 0).loans 0
                ⟨1, 100 * 10 ^ 18, 35000000, 600, 0, 0, true⟩
              loanCounter := 1 }, 0) := by
  have h := (openLoan_ltv_gate (initState 0)
    (fun a => if a = 1 then some ⟨7, 2⟩ else none) 1 (5 * 10 ^ 17) 0 (10 ^ 9)
    (100 * 10 ^ 18) 35000000 rfl (by decide) (by decide) (by decide)).2
    (by decide) (by decide)
  rw [h]; rfl

/-- C10: `setLiquidationParams` stores any admin-supplied pair without range
validation — in particular a bonus above 100% (`bonusBps > 10000`) is
accepted — while `setTierParams` rejects `ltvBps > 10000` and tier codes
outside {0,1,2}. -/
theorem liquidation_params_unvalidated :
    (∀ (st : LendingState) (t b : Nat),
      setLiquidationParams st st.owner t b =
        .ok { st with liquidationThresholdBps := t, liquidationBonusBps := b }) ∧
    (∀ (st : LendingState) (tier ltv apr : Nat), tier ≤ 2 → 10000 < ltv →
      setTierParams st st.owner tier ltv apr = .error .LTVTooHigh) ∧
    (∀ (st : LendingState) (tier ltv apr : Nat), 2 < tier →
      setTierParams st st.owner tier ltv apr = .error .InvalidTier) := by
  refine ⟨?_, ?_, ?_⟩
  · intro st t b
    simp [setLiquidationParams]
  · intro st tier ltv apr htier hltv
    have h1 : ¬ (tier > 2) := by omega
    simp [setTierParams, h1, hltv]
  · intro st tier ltv apr htier
    simp [setTierParams, htier]

/-- Witness for C10: the admin stores a 200% liquidation bonus
(`bonusBps = 20000`) unchallenged, while a 101% LTV and a tier code 3 are
rejected. -/
theorem liquidation_params_unvalidated_witness :
    setLiquidationParams (initState 0) 0 8500 20000 =
      .ok { initState 0 with
              liquidationThresholdBps := 8500, liquidationBonusBps := 20000 } ∧
    setTierParams (initState 0) 0 1 10100 600 = .error .LTVTooHigh ∧
    setTierParams (initState 0) 0 3 5000 600 = .error .InvalidTier := by
  refine ⟨?_, ?_, ?_⟩
  · exact liquidation_params_unvalidated.1 (initState 0) 8500 20000
  · exact liquidation_params_unvalidated.2.1 (initState 0) 1 10100 600
      (by decide) (by decide)
  · exact liquidation_params_unvalidated.2.2 (initState 0) 3 5000 600 (by decide)

/-- C4: `liquidate` on an active loan fails with `HealthFactorOk` when the
health factor is at least 1e18; otherwise, with the interest-accrued loan,
`repayAmount = min(maxRepay, debtAmount)`,
`bonus = repayAmount * bonusBps / 10000`, and
`seizedCollateral = (repayAmount + bonus) * 1e12 * 1e18 / price` (truncating
division), it fails with `SeizureExceedsCollateral` when the seizure exceeds
the loan's collateral and otherwise reduces the debt by `repayAmount`
(deactivating the loan at zero) and releases `seizedCollateral`, which never
exceeds the posted `collateralAmount`. -/
theorem liquidate_spec (st : LendingState) (sender price now loanId maxRepay h : Nat)
    (hp : st.paused = false) (ha : (st.loans loanId).active = true)
    (hhf : healthFactor (st.loans loanId) price now = .ok h) :
    (10 ^ 18 ≤ h →
      liquidate st sender price now loanId maxRepay = .error .HealthFactorOk) ∧
    (h < 10 ^ 18 →
      ((min maxRepay (accrueLoan (st.loans loanId) now).debtAmount +
          min maxRepay (accrueLoan (st.loans loanId) now).debtAmount *
            st.liquidationBonusBps / 10000) * 10 ^ 12 * 10 ^ 18 / price >
          (st.loans loanId).collateralAmount →
        liquidate st sender price now loanId maxRepay =
          .error .SeizureExceedsCollateral) ∧
      ((min maxRepay (accrueLoan (st.loans loanId) now).debtAmount +
          min maxRepay (accrueLoan (st.loans loanId) now).debtAmount *
            st.liquidationBonusBps / 10000) * 10 ^ 12 * 10 ^ 18 / price ≤
          (st.loans loanId).collateralAmount →
        liquidate st sender price now loanId maxRepay =
          .ok ({ st with
                  loans := setAt st.loans loanId
                    { accrueLoan (st.loans loanId) now with
                        debtAmount := (accrueLoan (st.loans loanId) now).debtAmount -
                          min maxRepay (accrueLoan (st.loans loanId) now).debtAmount
                        active := if (accrueLoan (st.loans loanId) now).debtAmount -
                            min maxRepay (accrueLoan (st.loans loanId) now).debtAmount = 0
                          then false else true } },
               (min maxRepay (accrueLoan (st.loans loanId) now).debtAmount +
                 min maxRepay (accrueLoan (st.loans loanId) now).debtAmount *
                   st.liquidationBonusBps / 10000) * 10 ^ 12 * 10 ^ 18 / price))) := by
  have hAact : (accrueLoan (st.loans loanId) now).active = true := by
    rw [accrueLoan_active]; exact ha
  have hAcol : (accrueLoan (st.loans loanId) now).collateralAmount =
      (st.loans loanId).collateralAmount := accrueLoan_collateral _ _
  have hmin : (if maxRepay < (accrueLoan (st.loans loanId) now).debtAmount
      then maxRepay else (accrueLoan (st.loans loanId) now).debtAmount) =
      min maxRepay (accrueLoan (st.loans loanId) now).debtAmount := by
    rw [Nat.min_def]; split_ifs <;> omega
  rw [liquidate_def, if_neg (by simp [hp]), if_neg (by simp [ha]), hhf]
  refine ⟨?_, ?_⟩
  · intro hge
    dsimp only
    rw [if_pos hge]
  · intro hlt
    dsimp only
    rw [if_neg (by omega), hmin, hAcol, hAact]
    constructor
    · intro hseize
      rw [if_pos (by omega)]
    · intro hseize
      rw [if_neg (by omega)]

/-- Witness for C4: the concrete partial liquidation — 0.3 USDC repaid plus
5% bonus at price 0.5 seizes 0.63 collateral tokens, leaves 0.3 USDC of
debt, and the loan stays active. -/
theorem liquidate_spec_witness :
    liquidate exLiqState 2 (5 * 10 ^ 17) 0 0 300000 =
      .ok ({ exLiqState with
              loans := setAt exLiqState.loans 0 ⟨1, 10 ^ 18, 300000, 600, 0, 0, true⟩ },
           63 * 10 ^ 16) := by
  have h := ((liquidate_spec exLiqState 2 (5 * 10 ^ 17) 0 0 300000
    833333333333333333 rfl rfl (by decide)).2 (by decide)).2 (by decide)
  rw [h]; rfl

/-- Counterexample to C8: with 35 USDC of debt at 600 bps, accruing at
`t1 = 8` and then `t2 = 16` truncates both half-interval interests to zero
(total 35000000), while a single accrual over the 16 seconds yields
35000001 — frequent accrual here yields strictly LESS than rare accrual, so
"at least as large" fails. -/
theorem accrual_split_can_lose :
    (accrueLoan (accrueLoan specLoan 8) 16).debtAmount <
      (accrueLoan specLoan 16).debtAmount := by decide

/-- C8 (amended): splitting an accrual interval at an intermediate time can
change the total either way — compounding can add, truncation can lose — but
the two-step total is never more than one debt unit below the one-shot
total: `oneShot ≤ twoStep + 1`. -/
theorem accrual_split_lower_bound : ∀ (l : Loan) (t1 t2 : Nat),
    l.lastAccruedAt ≤ t1 → t1 ≤ t2 →
    (accrueLoan l t2).debtAmount ≤
      (accrueLoan (accrueLoan l t1) t2).debtAmount + 1 := by
  intro l t1 t2 h01 h12
  by_cases hD : l.debtAmount = 0
  · rw [accrueLoan_zero_debt l t1 hD, accrueLoan_zero_debt l t2 hD]
    omega
  · by_cases hE1 : t1 - l.lastAccruedAt = 0
    · rw [accrueLoan_zero_elapsed l t1 hE1]
      omega
    · by_cases hE2 : t2 - t1 = 0
      · have ht : t2 = t1 := by omega
        subst ht
        rw [accrueLoan_pos l t2 hD hE1]
        rw [accrueLoan_zero_elapsed _ t2 (by simp)]
        omega
      · have hE02 : t2 - l.lastAccruedAt ≠ 0 := by omega
        rw [accrueLoan_pos l t2 hD hE02, accrueLoan_pos l t1 hD hE1]
        rw [accrueLoan_pos _ t2 (by simp; omega) (by simp; omega)]
        dsimp only
        have hsplit : t2 - l.lastAccruedAt =
            (t1 - l.lastAccruedAt) + (t2 - t1) := by omega
        rw [hsplit]
        have hb := split_interest_bound l.debtAmount l.interestRate
          (t1 - l.lastAccruedAt) (t2 - t1)
        omega

/-- Witness for C8 (amended): the counterexample interval — one-shot total
35000001 is within one unit of the two-step total 35000000. -/
theorem accrual_split_lower_bound_witness :
    (accrueLoan specLoan 16).debtAmount ≤
      (accrueLoan (accrueLoan specLoan 8) 16).debtAmount + 1 :=
  accrual_split_lower_bound specLoan 8 16 (by decide) (by decide)

/-- C9: `liquidationThresholdBps` is dead configuration.  Overwriting it
with any value `x` commutes with every operation: `openLoan`, `repay`,
`healthFactor` and `liquidate` return the same result (value or error) and
make the same state changes apart from the overwritten field itself;
`liquidate`'s gate reads only the health factor against 1e18. -/
theorem liquidationThreshold_unused :
    ∀ (st : LendingState) (x : Nat) (reg : Registry)
      (sender price now pool c d loanId amt maxRepay : Nat),
    openLoan { st with liquidationThresholdBps := x } reg sender price now pool c d =
      Except.map (fun p => ({ p.1 with liquidationThresholdBps := x }, p.2))
        (openLoan st reg sender price now pool c d) ∧
    repay { st with liquidationThresholdBps := x } sender now loanId amt =
      Except.map (fun p => ({ p.1 with liquidationThresholdBps := x }, p.2))
        (repay st sender now loanId amt) ∧
    healthFactorS { st with liquidationThresholdBps := x } loanId price now =
      healthFactorS st loanId price now ∧
    liquidate { st with liquidationThresholdBps := x } sender price now loanId maxRepay =
      Except.map (fun p => ({ p.1 with liquidationThresholdBps := x }, p.2))
        (liquidate st sender price now loanId maxRepay) := by
  intro st x reg sender price now pool c d loanId amt maxRepay
  obtain ⟨lo, lc, tp, th, bo, ow, pa⟩ := st
  refine ⟨?_, ?_, ?_, ?_⟩
  · rw [openLoan_def, openLoan_def]
    dsimp only
    split_ifs <;> rfl
  · rw [repay_def, repay_def]
    dsimp only
    split_ifs <;> rfl
  · rfl
  · rw [liquidate_def, liquidate_def]
    dsimp only
    cases healthFactor (lo loanId) price now with
    | error e =>
      dsimp only
      split_ifs <;> rfl
    | ok hf =>
      dsimp only
      split_ifs <;> rfl

end ChainFlow
